import Mathlib

/-!
Verification development for the Ledger hardware session manager
(`src/contexts/Hardware/Ledger.tsx`).

The component is a thin state-management layer over an external hardware
transport provider (`TransportWebHID`) and a protocol client (`Polkadot`).
The asynchronous, exception-based source is embedded as pure state-passing
functions parameterised by a `Provider` oracle describing the behaviour of
the external transport and protocol client.  Every awaited external call is
an oracle lookup; every JavaScript `throw`/rejection is an `Except.error`
value that the embedded `try`/`catch` structure handles exactly where the
source does.  Observable interactions with the transport layer (each
`create()` call, each `close()` call, each address-derivation call, and each
invocation of the `handleGetAddress` sub-routine) are recorded in an event
trace so that claims about which calls happen can be stated.

The React rendering state and its `useRef` mirror are kept in lockstep by
`setStateWithRef` on every write in the source, so each such pair is
modelled as a single state slot.
-/

namespace Ledger

/-- Pairing status: `unknown`, `paired` or `not_paired`. -/
inductive PairingStatus
  | unknown
  | paired
  | not_paired
deriving DecidableEq, Repr

/-- A status-code record `{ ack, statusCode }` (type `LedgerResponse`),
used both for entries of the status-code history and for the stored
transport error. -/
structure LedgerResponse where
  ack : String
  statusCode : String
deriving DecidableEq, Repr

/-- Device metadata `{ id, productName }` destructured from
`transport.deviceModel`. -/
structure Device where
  id : String
  productName : String
deriving DecidableEq, Repr

/-- A JavaScript error value as observed by `handleErrors`: only the
optional `id` field is inspected (`err?.id === 'NoDevice'`).  An error
without an `id` field (e.g. a `TypeError`) has `id = none`. -/
structure JsError where
  id : Option String
deriving DecidableEq, Repr

/-- The `TypeError` raised by a property access on `undefined`; it carries
no `id` field. -/
def typeError : JsError := { id := none }

/-- A transport handle returned by a successful `TransportWebHID.create()`;
its `deviceModel` field may be absent. -/
structure Transport where
  deviceModel : Option Device
deriving DecidableEq, Repr

/-- The tasks accepted by `executeLedgerLoop` (type `LedgerTask`). -/
inductive LedgerTask
  | get_device_info
  | get_address
deriving DecidableEq, Repr

/-- The optional `options` argument of `executeLedgerLoop`.  `undef` is an
absent argument (JavaScript `undefined`); `obj oi` is an options object
whose `accountIndex` field is `oi` (absent when `oi = none`). -/
inductive JsOptions
  | undef
  | obj (accountIndex : Option Nat)
deriving DecidableEq, Repr

/-- The values the TransportResponse slot can hold: the in-progress notice
written by `handleGetAddress`, or the final
`{ ack, options, statusCode, device, body }` success record written by
`executeLedgerLoop`. -/
inductive TransportResp
  | progress (ack : String) (statusCode : String) (body : String)
  | addressResult (ack : String) (options : JsOptions) (statusCode : String)
      (device : Device) (body : List String)
deriving DecidableEq, Repr

/-- The state owned by the Ledger hardware provider.  Fields backed by both
a `useState` cell and a `useRef` mirror (pairing status, importing flag,
status codes) are single slots here, since `setStateWithRef` writes both
copies together. -/
structure LedgerState where
  isPaired : PairingStatus
  isImporting : Bool
  statusCodes : List LedgerResponse
  transportError : Option LedgerResponse
  ledgerDeviceInfo : Option Device
  transportResponse : Option TransportResp
deriving DecidableEq, Repr

/-- The initial state of the provider. -/
def initialState : LedgerState :=
  { isPaired := PairingStatus.unknown
    isImporting := false
    statusCodes := []
    transportError := none
    ledgerDeviceInfo := none
    transportResponse := none }

/-- Behaviour of the external transport provider and protocol client.
`create n` is the outcome of the `(n+1)`-st `TransportWebHID.create()`
call of the run, `close n` the outcome of the `(n+1)`-st `close()` call,
and `getAddress path confirm` the outcome of `polkadot.getAddress`. -/
structure Provider where
  create : Nat → Except JsError Transport
  close : Nat → Except JsError Unit
  getAddress : String → Bool → Except JsError String

/-- Observable interactions with the external layer during a run. -/
inductive Event
  | createCall
  | closeCall
  | handleGetAddressCall (accountIndex : Nat)
  | getAddressCall (path : String) (confirm : Bool)
deriving DecidableEq, Repr

/-- `TOTAL_ALLOWED_STATUS_CODES = 50`. -/
def TOTAL_ALLOWED_STATUS_CODES : Nat := 50

/-- `handleErrors`: classifies an error by its `id` field and records the
corresponding transport error. -/
def handleErrors (err : JsError) (s : LedgerState) : LedgerState :=
  if err.id = some "NoDevice" then
    { s with transportError := some ⟨"failure", "DeviceNotConnected"⟩ }
  else
    { s with transportError := some ⟨"failure", "AppNotOpen"⟩ }

/-- `checkPaired`: attempts `TransportWebHID.create()` and reduces the
outcome to a boolean; it performs no state write. -/
def checkPaired (p : Provider) (s : LedgerState) : Bool × LedgerState :=
  match p.create 0 with
  | Except.ok _ => (true, s)
  | Except.error _ => (false, s)

/-- The derivation path string interpolated by `handleGetAddress`:
`44'/354'/{accountIndex}'/0/0` (apostrophes written as \x27). -/
def derivationPath (accountIndex : Nat) : String :=
  "44\x27/354\x27/" ++ toString accountIndex ++ "\x27/0/0"

/-- The result record returned by a successful `handleGetAddress`. -/
structure AddressResult where
  statusCode : String
  device : Device
  body : List String
deriving DecidableEq, Repr

/-- The in-progress notice `setTransportResponse` stores at the start of
`handleGetAddress` (the body string spelling follows the source). -/
def gettingNotice (accountIndex : Nat) : TransportResp :=
  TransportResp.progress "success" "GettingAddress"
    ("Getting addresess " ++ toString accountIndex ++ " in progress.")

/-- `handleGetAddress`: destructures `deviceModel` from the transport (a
`TypeError` when it is absent), announces the in-progress notice, then
performs the address-derivation call.  Errors propagate to the caller; the
notice write precedes the derivation call in the source, so the returned
state carries it in both branches. -/
def handleGetAddress (p : Provider) (t : Transport) (accountIndex : Nat)
    (s : LedgerState) : Except JsError AddressResult × LedgerState × List Event :=
  match t.deviceModel with
  | none => (Except.error typeError, s, [])
  | some d =>
    match p.getAddress (derivationPath accountIndex) false with
    | Except.error e =>
        (Except.error e,
          { s with transportResponse := some (gettingNotice accountIndex) },
          [Event.getAddressCall (derivationPath accountIndex) false])
    | Except.ok addr =>
        (Except.ok ⟨"ReceivedAddress", d, [addr]⟩,
          { s with transportResponse := some (gettingNotice accountIndex) },
          [Event.getAddressCall (derivationPath accountIndex) false])

/-- The `get_device_info` phase of `executeLedgerLoop`.  Returns the new
state, the events, the `noDevice` flag, and the numbers of `create()` and
`close()` calls performed. -/
def runDeviceInfoPhase (p : Provider) (tasks : List LedgerTask)
    (s : LedgerState) : LedgerState × List Event × Bool × Nat × Nat :=
  if tasks.contains LedgerTask.get_device_info then
    match p.create 0 with
    | Except.error err => (handleErrors err s, [Event.createCall], true, 1, 0)
    | Except.ok t =>
      let s1 := match t.deviceModel with
        | some d => { s with ledgerDeviceInfo := some d }
        | none => s
      match p.close 0 with
      | Except.error err =>
          (handleErrors err s1, [Event.createCall, Event.closeCall], true, 1, 1)
      | Except.ok _ =>
          (s1, [Event.createCall, Event.closeCall], false, 1, 1)
  else (s, [], false, 0, 0)

/-- `setTransportResponse({ ack, options, ...result })`: the success record
stored after a successful address fetch. -/
def storeSuccess (options : JsOptions) (r : AddressResult) (s : LedgerState) :
    LedgerState :=
  { s with transportResponse := some (TransportResp.addressResult "success"
      options r.statusCode r.device r.body) }

/-- The second phase of `executeLedgerLoop` (runs whenever `noDevice` is
false): opens a fresh transport, performs the address fetch when
`get_address` was requested, and closes the transport; any raised error
falls into the surrounding `catch`, which records it without closing. -/
def runAddressPhase (p : Provider) (tasks : List LedgerTask)
    (options : JsOptions) (s : LedgerState) (creates closes : Nat) :
    LedgerState × List Event :=
  match p.create creates with
  | Except.error err => (handleErrors err s, [Event.createCall])
  | Except.ok t =>
    if tasks.contains LedgerTask.get_address then
      match options with
      | JsOptions.undef =>
          -- reading `accountIndex` off an absent options value raises a
          -- `TypeError`, caught by the surrounding catch before the
          -- sub-routine is invoked and before `close()` is reached
          (handleErrors typeError s, [Event.createCall])
      | JsOptions.obj accountIndexField =>
        match handleGetAddress p t (accountIndexField.getD 0) s with
        | (Except.error e, s1, evs) =>
            (handleErrors e s1,
              [Event.createCall,
                Event.handleGetAddressCall (accountIndexField.getD 0)] ++ evs)
        | (Except.ok r, s1, evs) =>
            match p.close closes with
            | Except.error err =>
                (handleErrors err (storeSuccess options r s1),
                  [Event.createCall,
                    Event.handleGetAddressCall (accountIndexField.getD 0)] ++ evs
                    ++ [Event.closeCall])
            | Except.ok _ =>
                (storeSuccess options r s1,
                  [Event.createCall,
                    Event.handleGetAddressCall (accountIndexField.getD 0)] ++ evs
                    ++ [Event.closeCall])
    else
      match p.close closes with
      | Except.error err =>
          (handleErrors err s, [Event.createCall, Event.closeCall])
      | Except.ok _ => (s, [Event.createCall, Event.closeCall])

/-- `executeLedgerLoop`: runs the requested tasks against the provider,
updating the state and producing the trace of external interactions. -/
def executeLedgerLoop (p : Provider) (tasks : List LedgerTask)
    (options : JsOptions) (s : LedgerState) : LedgerState × List Event :=
  let r1 := runDeviceInfoPhase p tasks s
  let s1 := r1.1
  let ev1 := r1.2.1
  let noDevice := r1.2.2.1
  let creates := r1.2.2.2.1
  let closes := r1.2.2.2.2
  if noDevice then (s1, ev1)
  else
    let r2 := runAddressPhase p tasks options s1 creates closes
    (r2.1, ev1 ++ r2.2)

/-- The status-code list update of `handleNewStatusCode`: prepend the new
entry, then pop the last entry when the allowed total is exceeded. -/
def pushStatusCode (entry : LedgerResponse) (l : List LedgerResponse) :
    List LedgerResponse :=
  if (entry :: l).length > TOTAL_ALLOWED_STATUS_CODES then (entry :: l).dropLast
  else entry :: l

/-- `handleNewStatusCode`: prepends the new entry and pops the last entry
when the bound is exceeded. -/
def handleNewStatusCode (ack statusCode : String) (s : LedgerState) :
    LedgerState :=
  { s with statusCodes := pushStatusCode ⟨ack, statusCode⟩ s.statusCodes }

/-- `setIsPaired`. -/
def setIsPaired (pst : PairingStatus) (s : LedgerState) : LedgerState :=
  { s with isPaired := pst }

/-- `setIsImporting`. -/
def setIsImporting (v : Bool) (s : LedgerState) : LedgerState :=
  { s with isImporting := v }

/-- `resetStatusCodes`. -/
def resetStatusCodes (s : LedgerState) : LedgerState :=
  { s with statusCodes := [] }

/-- `cancelImport`. -/
def cancelImport (s : LedgerState) : LedgerState :=
  resetStatusCodes (setIsImporting false s)

/-- `getIsImporting`. -/
def getIsImporting (s : LedgerState) : Bool :=
  s.isImporting

/-- Applying a sequence of `handleNewStatusCode` calls in order. -/
def applyStatusCalls (calls : List (String × String)) (s : LedgerState) :
    LedgerState :=
  calls.foldl (fun st c => handleNewStatusCode c.1 c.2 st) s

/-- A simulated provider whose every `create()` call rejects with the
transport no-device signal. -/
def noDeviceProvider : Provider :=
  { create := fun _ => Except.error ⟨some "NoDevice"⟩
    close := fun _ => Except.ok ()
    getAddress := fun _ _ => Except.ok "addr1" }

/-- A simulated provider whose calls all succeed. -/
def allOkProvider : Provider :=
  { create := fun _ => Except.ok ⟨some ⟨"1", "Nano"⟩⟩
    close := fun _ => Except.ok ()
    getAddress := fun _ _ => Except.ok "addr1" }

/-- A simulated provider whose `create()` calls succeed but whose
address-derivation call rejects with a generic error. -/
def failingDeriveProvider : Provider :=
  { create := fun _ => Except.ok ⟨some ⟨"1", "Nano"⟩⟩
    close := fun _ => Except.ok ()
    getAddress := fun _ _ => Except.error ⟨none⟩ }

/-- Number of `closeCall` events in a trace. -/
def countClose : List Event → Nat
  | [] => 0
  | Event.closeCall :: rest => countClose rest + 1
  | _ :: rest => countClose rest

/-- Number of `createCall` events in a trace. -/
def countCreate : List Event → Nat
  | [] => 0
  | Event.createCall :: rest => countCreate rest + 1
  | _ :: rest => countCreate rest

/-- Agreement on the state slots that `executeLedgerLoop` never writes:
the status-code history, the pairing status and the importing flag. -/
def SameCore (s1 s2 : LedgerState) : Prop :=
  s1.statusCodes = s2.statusCodes ∧ s1.isPaired = s2.isPaired ∧
    s1.isImporting = s2.isImporting

theorem sameCore_refl (s : LedgerState) : SameCore s s := ⟨rfl, rfl, rfl⟩

theorem sameCore_trans {a b c : LedgerState} (h1 : SameCore a b)
    (h2 : SameCore b c) : SameCore a c := by
  obtain ⟨x1, x2, x3⟩ := h1
  obtain ⟨y1, y2, y3⟩ := h2
  exact ⟨x1.trans y1, x2.trans y2, x3.trans y3⟩

theorem handleErrors_sameCore (e : JsError) (s : LedgerState) :
    SameCore (handleErrors e s) s := by
  unfold handleErrors
  split <;> exact ⟨rfl, rfl, rfl⟩

theorem handleGetAddress_sameCore (p : Provider) (t : Transport) (i : Nat)
    (s : LedgerState) : SameCore (handleGetAddress p t i s).2.1 s := by
  unfold handleGetAddress
  repeat' split
  all_goals exact ⟨rfl, rfl, rfl⟩

theorem storeSuccess_sameCore (options : JsOptions) (r : AddressResult)
    (s : LedgerState) : SameCore (storeSuccess options r s) s :=
  ⟨rfl, rfl, rfl⟩

theorem runDeviceInfoPhase_sameCore (p : Provider) (tasks : List LedgerTask)
    (s : LedgerState) : SameCore (runDeviceInfoPhase p tasks s).1 s := by
  unfold runDeviceInfoPhase
  repeat' split
  all_goals
    first
      | exact ⟨rfl, rfl, rfl⟩
      | exact sameCore_trans (handleErrors_sameCore _ _) ⟨rfl, rfl, rfl⟩

theorem runAddressPhase_sameCore (p : Provider) (tasks : List LedgerTask)
    (options : JsOptions) (s : LedgerState) (c k : Nat) :
    SameCore (runAddressPhase p tasks options s c k).1 s := by
  unfold runAddressPhase
  split
  · exact handleErrors_sameCore _ _
  · rename_i t heqCreate
    split
    · split
      · exact handleErrors_sameCore _ _
      · rename_i a
        split
        · rename_i e s1 evs heqSub
          have hsub := handleGetAddress_sameCore p t (a.getD 0) s
          rw [heqSub] at hsub
          exact sameCore_trans (handleErrors_sameCore _ _) hsub
        · rename_i r s1 evs heqSub
          have hsub := handleGetAddress_sameCore p t (a.getD 0) s
          rw [heqSub] at hsub
          split
          · exact sameCore_trans (handleErrors_sameCore _ _)
              (sameCore_trans (storeSuccess_sameCore _ _ _) hsub)
          · exact sameCore_trans (storeSuccess_sameCore _ _ _) hsub
    · split
      · exact sameCore_trans (handleErrors_sameCore _ _) ⟨rfl, rfl, rfl⟩
      · exact ⟨rfl, rfl, rfl⟩

/-- C1: Against a provider whose `create()` rejects with the no-device
signal, `executeLedgerLoop` on `[get_device_info]` records TransportError
`{failure, DeviceNotConnected}`, leaves DeviceInfo unchanged, and performs
exactly one `create()` call (the address-fetch phase never opens a second
transport). -/
theorem executeLedgerLoop_getDeviceInfo_noDevice (p : Provider) (e : JsError)
    (options : JsOptions) (s : LedgerState)
    (hid : e.id = some "NoDevice") (hc : p.create 0 = Except.error e) :
    (executeLedgerLoop p [LedgerTask.get_device_info] options s).1.transportError
      = some ⟨"failure", "DeviceNotConnected"⟩ ∧
    (executeLedgerLoop p [LedgerTask.get_device_info] options s).1.ledgerDeviceInfo
      = s.ledgerDeviceInfo ∧
    (executeLedgerLoop p [LedgerTask.get_device_info] options s).2
      = [Event.createCall] := by
  simp [executeLedgerLoop, runDeviceInfoPhase, handleErrors, hc, hid]

/-- Witness for C1 at the concrete no-device provider and the initial
state. -/
theorem executeLedgerLoop_getDeviceInfo_noDevice_witness :
    (executeLedgerLoop noDeviceProvider [LedgerTask.get_device_info]
        JsOptions.undef initialState).1.transportError
      = some ⟨"failure", "DeviceNotConnected"⟩ ∧
    (executeLedgerLoop noDeviceProvider [LedgerTask.get_device_info]
        JsOptions.undef initialState).1.ledgerDeviceInfo
      = initialState.ledgerDeviceInfo ∧
    (executeLedgerLoop noDeviceProvider [LedgerTask.get_device_info]
        JsOptions.undef initialState).2 = [Event.createCall] :=
  executeLedgerLoop_getDeviceInfo_noDevice noDeviceProvider ⟨some "NoDevice"⟩
    JsOptions.undef initialState rfl rfl

/-- C3: For every task list, options value (including an absent one),
prior state and provider behaviour, `executeLedgerLoop` completes with a
resulting state (the embedding is a total function: every raised error is
consumed by a catch), the status-code history, pairing status and
importing flag are untouched, and error recording (`handleErrors`) writes
the TransportError slot and nothing else. -/
theorem executeLedgerLoop_no_throw (p : Provider) (tasks : List LedgerTask)
    (options : JsOptions) (s : LedgerState) :
    (executeLedgerLoop p tasks options s).1.statusCodes = s.statusCodes ∧
    (executeLedgerLoop p tasks options s).1.isPaired = s.isPaired ∧
    (executeLedgerLoop p tasks options s).1.isImporting = s.isImporting ∧
    (∀ e2 s2, (handleErrors e2 s2).statusCodes = s2.statusCodes ∧
      (handleErrors e2 s2).isPaired = s2.isPaired ∧
      (handleErrors e2 s2).isImporting = s2.isImporting ∧
      (handleErrors e2 s2).ledgerDeviceInfo = s2.ledgerDeviceInfo ∧
      (handleErrors e2 s2).transportResponse = s2.transportResponse) := by
  have hmain : SameCore (executeLedgerLoop p tasks options s).1 s := by
    simp only [executeLedgerLoop]
    split
    · exact runDeviceInfoPhase_sameCore p tasks s
    · exact sameCore_trans (runAddressPhase_sameCore p tasks options _ _ _)
        (runDeviceInfoPhase_sameCore p tasks s)
  refine ⟨hmain.1, hmain.2.1, hmain.2.2, ?_⟩
  intro e2 s2
  unfold handleErrors
  split <;> exact ⟨rfl, rfl, rfl, rfl, rfl⟩

/-- C4: `handleErrors` classifies every failure into exactly two kinds,
`DeviceNotConnected` for an error whose id is the no-device signal and
`AppNotOpen` for every other error; in particular a failed
address-derivation call after a successful `create()` (with an error not
carrying the no-device signal) leaves TransportError `{failure,
AppNotOpen}`. -/
theorem handleErrors_two_kinds (p : Provider) (d : Device) (e : JsError)
    (oi : Option Nat) (s : LedgerState)
    (he : e.id ≠ some "NoDevice")
    (hc : p.create 0 = Except.ok ⟨some d⟩)
    (hg : ∀ path b, p.getAddress path b = Except.error e) :
    (∀ e2 s2, (handleErrors e2 s2).transportError
      = some (if e2.id = some "NoDevice" then ⟨"failure", "DeviceNotConnected"⟩
          else ⟨"failure", "AppNotOpen"⟩)) ∧
    (executeLedgerLoop p [LedgerTask.get_address] (JsOptions.obj oi)
        s).1.transportError
      = some ⟨"failure", "AppNotOpen"⟩ := by
  constructor
  · intro e2 s2
    unfold handleErrors
    split <;> simp_all
  · simp [executeLedgerLoop, runDeviceInfoPhase, runAddressPhase,
      handleGetAddress, handleErrors, hc, hg, he]

/-- Witness for C4 at the concrete provider that succeeds `create()` and
fails the derivation call, with account index 2. -/
theorem handleErrors_two_kinds_witness :
    (executeLedgerLoop failingDeriveProvider [LedgerTask.get_address]
        (JsOptions.obj (some 2)) initialState).1.transportError
      = some ⟨"failure", "AppNotOpen"⟩ :=
  (handleErrors_two_kinds failingDeriveProvider ⟨"1", "Nano"⟩ ⟨none⟩
    (some 2) initialState (by decide) rfl (fun _ _ => rfl)).2

/-- C2: Against a provider whose calls all succeed, `executeLedgerLoop` on
`[get_address]` with account index 0 stores the success record
`{ack success, options, statusCode ReceivedAddress, device, body [address]}`
and the derivation call uses path 44-354-0-0-0 (hardened prefix) with the
confirmation boolean false. -/
theorem executeLedgerLoop_getAddress_success (p : Provider) (d : Device)
    (addr : String) (s : LedgerState)
    (hc : p.create 0 = Except.ok ⟨some d⟩)
    (hg : p.getAddress (derivationPath 0) false = Except.ok addr)
    (hcl : p.close 0 = Except.ok ()) :
    (executeLedgerLoop p [LedgerTask.get_address] (JsOptions.obj (some 0))
        s).1.transportResponse
      = some (TransportResp.addressResult "success" (JsOptions.obj (some 0))
          "ReceivedAddress" d [addr]) ∧
    Event.getAddressCall (derivationPath 0) false
      ∈ (executeLedgerLoop p [LedgerTask.get_address] (JsOptions.obj (some 0))
          s).2 ∧
    derivationPath 0 = "44\x27/354\x27/0\x27/0/0" := by
  refine ⟨?_, ?_, by decide⟩ <;>
    simp [executeLedgerLoop, runDeviceInfoPhase, runAddressPhase,
      handleGetAddress, storeSuccess, hc, hg, hcl]

/-- Witness for C2 at the concrete all-success provider and the initial
state. -/
theorem executeLedgerLoop_getAddress_success_witness :
    (executeLedgerLoop allOkProvider [LedgerTask.get_address]
        (JsOptions.obj (some 0)) initialState).1.transportResponse
      = some (TransportResp.addressResult "success" (JsOptions.obj (some 0))
          "ReceivedAddress" ⟨"1", "Nano"⟩ ["addr1"]) ∧
    Event.getAddressCall (derivationPath 0) false
      ∈ (executeLedgerLoop allOkProvider [LedgerTask.get_address]
          (JsOptions.obj (some 0)) initialState).2 ∧
    derivationPath 0 = "44\x27/354\x27/0\x27/0/0" :=
  executeLedgerLoop_getAddress_success allOkProvider ⟨"1", "Nano"⟩ "addr1"
    initialState rfl rfl rfl

/-- C8: When the derivation call fails after a successful `create()`, the
in-progress notice `{ack success, statusCode GettingAddress, body ...}`
written by `handleGetAddress` is not rolled back: the final state holds it
in TransportResponse while TransportError simultaneously reports
`{failure, AppNotOpen}`. -/
theorem executeLedgerLoop_progress_retained (p : Provider) (d : Device)
    (e : JsError) (oi : Option Nat) (s : LedgerState)
    (he : e.id ≠ some "NoDevice")
    (hc : p.create 0 = Except.ok ⟨some d⟩)
    (hg : ∀ path b, p.getAddress path b = Except.error e) :
    (executeLedgerLoop p [LedgerTask.get_address] (JsOptions.obj oi)
        s).1.transportResponse
      = some (gettingNotice (oi.getD 0)) ∧
    gettingNotice (oi.getD 0) = TransportResp.progress "success"
      "GettingAddress"
      ("Getting addresess " ++ toString (oi.getD 0) ++ " in progress.") ∧
    (executeLedgerLoop p [LedgerTask.get_address] (JsOptions.obj oi)
        s).1.transportError
      = some ⟨"failure", "AppNotOpen"⟩ := by
  refine ⟨?_, rfl, ?_⟩ <;>
    simp [executeLedgerLoop, runDeviceInfoPhase, runAddressPhase,
      handleGetAddress, handleErrors, hc, hg, he]

/-- Witness for C8 at the concrete provider that succeeds `create()` and
fails the derivation call, with account index 3. -/
theorem executeLedgerLoop_progress_retained_witness :
    (executeLedgerLoop failingDeriveProvider [LedgerTask.get_address]
        (JsOptions.obj (some 3)) initialState).1.transportResponse
      = some (gettingNotice ((some 3).getD 0)) ∧
    gettingNotice ((some 3).getD 0) = TransportResp.progress "success"
      "GettingAddress"
      ("Getting addresess " ++ toString ((some 3).getD 0) ++ " in progress.") ∧
    (executeLedgerLoop failingDeriveProvider [LedgerTask.get_address]
        (JsOptions.obj (some 3)) initialState).1.transportError
      = some ⟨"failure", "AppNotOpen"⟩ :=
  executeLedgerLoop_progress_retained failingDeriveProvider ⟨"1", "Nano"⟩
    ⟨none⟩ (some 3) initialState (by decide) rfl (fun _ _ => rfl)

theorem handleNewStatusCode_length_le (a c : String) (s : LedgerState)
    (h : s.statusCodes.length ≤ 50) :
    (handleNewStatusCode a c s).statusCodes.length ≤ 50 := by
  unfold handleNewStatusCode pushStatusCode TOTAL_ALLOWED_STATUS_CODES
  split
  · simp only [List.length_dropLast, List.length_cons]
    omega
  · next hle =>
    simp only [List.length_cons, gt_iff_lt, not_lt] at hle
    exact hle

theorem applyStatusCalls_length_le (calls : List (String × String)) :
    (applyStatusCalls calls initialState).statusCodes.length ≤ 50 := by
  suffices h : ∀ s : LedgerState, s.statusCodes.length ≤ 50 →
      (applyStatusCalls calls s).statusCodes.length ≤ 50 from
    h initialState (by decide)
  induction calls with
  | nil => intro s hs; exact hs
  | cons cHead rest ih =>
    intro s hs
    exact ih _ (handleNewStatusCode_length_le cHead.1 cHead.2 s hs)

theorem handleNewStatusCode_head (a c : String) (s : LedgerState) :
    (handleNewStatusCode a c s).statusCodes.head? = some ⟨a, c⟩ := by
  unfold handleNewStatusCode pushStatusCode TOTAL_ALLOWED_STATUS_CODES
  split
  · next hgt =>
    cases hl : s.statusCodes with
    | nil => rw [hl] at hgt; simp at hgt
    | cons x xs =>
      rw [List.dropLast_cons₂]
      rfl
  · rfl

theorem handleNewStatusCode_drop_oldest (a c : String) (s : LedgerState)
    (h : s.statusCodes.length = 50) :
    (handleNewStatusCode a c s).statusCodes
      = ⟨a, c⟩ :: s.statusCodes.dropLast := by
  unfold handleNewStatusCode pushStatusCode TOTAL_ALLOWED_STATUS_CODES
  split
  · cases hl : s.statusCodes with
    | nil => rw [hl] at h; simp at h
    | cons x xs => exact List.dropLast_cons₂ ..
  · next hle =>
    exfalso
    simp only [List.length_cons, gt_iff_lt, not_lt] at hle
    omega

/-- C5: After any sequence of `handleNewStatusCode` calls from the empty
history, the status-code sequence has at most 50 entries (before and after
one more call), the head after a call is the entry that call added, and a
call made when the sequence already holds 50 entries drops the oldest
(last) entry. -/
theorem handleNewStatusCode_bounded (calls : List (String × String))
    (a c : String) :
    (applyStatusCalls calls initialState).statusCodes.length ≤ 50 ∧
    (handleNewStatusCode a c
        (applyStatusCalls calls initialState)).statusCodes.length ≤ 50 ∧
    (handleNewStatusCode a c
        (applyStatusCalls calls initialState)).statusCodes.head?
      = some ⟨a, c⟩ ∧
    ((applyStatusCalls calls initialState).statusCodes.length = 50 →
      (handleNewStatusCode a c
          (applyStatusCalls calls initialState)).statusCodes
        = ⟨a, c⟩ ::
          (applyStatusCalls calls initialState).statusCodes.dropLast) :=
  ⟨applyStatusCalls_length_le calls,
   handleNewStatusCode_length_le a c _ (applyStatusCalls_length_le calls),
   handleNewStatusCode_head a c _,
   fun h => handleNewStatusCode_drop_oldest a c _ h⟩

set_option maxRecDepth 10000 in
/-- Witness for C5 at a history of exactly 50 entries, where the overflow
branch fires. -/
theorem handleNewStatusCode_bounded_witness :
    (handleNewStatusCode "a" "c"
        (applyStatusCalls (List.replicate 50 ("x", "y"))
          initialState)).statusCodes
      = ⟨"a", "c"⟩ :: (applyStatusCalls (List.replicate 50 ("x", "y"))
          initialState).statusCodes.dropLast :=
  (handleNewStatusCode_bounded (List.replicate 50 ("x", "y")) "a" "c").2.2.2
    (by decide)

/-- C6 counterexample: with a provider whose `create()` succeeds but whose
derivation call fails, the trace of `executeLedgerLoop` on `[get_address]`
opens a transport and never closes it, so the opened handle is not closed
on this failure path. -/
theorem executeLedgerLoop_close_counterexample :
    Event.createCall ∈ (executeLedgerLoop failingDeriveProvider
        [LedgerTask.get_address] (JsOptions.obj (some 0)) initialState).2 ∧
    Event.closeCall ∉ (executeLedgerLoop failingDeriveProvider
        [LedgerTask.get_address] (JsOptions.obj (some 0)) initialState).2 := by
  decide

/-- C6 amended: every transport handle opened by `create()` is closed when
its phase completes without a raised error (here: all external calls
succeed and an options object is supplied); on a failure raised after
`create()` succeeded the handle is abandoned without `close()`. -/
theorem executeLedgerLoop_close_on_success (p : Provider) (d : Device)
    (addr : String) (tasks : List LedgerTask) (oi : Option Nat)
    (s : LedgerState)
    (hc : ∀ n, p.create n = Except.ok ⟨some d⟩)
    (hcl : ∀ n, p.close n = Except.ok ())
    (hg : ∀ path b, p.getAddress path b = Except.ok addr) :
    countClose (executeLedgerLoop p tasks (JsOptions.obj oi) s).2
      = countCreate (executeLedgerLoop p tasks (JsOptions.obj oi) s).2 := by
  by_cases hdi : LedgerTask.get_device_info ∈ tasks <;>
  by_cases hga : LedgerTask.get_address ∈ tasks <;>
  simp [executeLedgerLoop, runDeviceInfoPhase, runAddressPhase,
    handleGetAddress, storeSuccess, hc, hcl, hg, hdi, hga, countClose,
    countCreate]

/-- Witness for the amended C6 at the all-success provider running both
tasks. -/
theorem executeLedgerLoop_close_on_success_witness :
    countClose (executeLedgerLoop allOkProvider
        [LedgerTask.get_device_info, LedgerTask.get_address]
        (JsOptions.obj none) initialState).2
      = countCreate (executeLedgerLoop allOkProvider
          [LedgerTask.get_device_info, LedgerTask.get_address]
          (JsOptions.obj none) initialState).2 :=
  executeLedgerLoop_close_on_success allOkProvider ⟨"1", "Nano"⟩ "addr1"
    [LedgerTask.get_device_info, LedgerTask.get_address] none initialState
    (fun _ => rfl) (fun _ => rfl) (fun _ _ => rfl)

/-- C7 counterexample: with an all-success provider but no options value
supplied, the run performs only the `create()` call — the address-fetch
sub-routine is never invoked (no `handleGetAddressCall` and no derivation
call in the trace) and TransportError is set to `{failure, AppNotOpen}`,
because the property read on the absent options value raises. -/
theorem executeLedgerLoop_options_undef_counterexample :
    (executeLedgerLoop allOkProvider [LedgerTask.get_address] JsOptions.undef
        initialState).2 = [Event.createCall] ∧
    (executeLedgerLoop allOkProvider [LedgerTask.get_address] JsOptions.undef
        initialState).1.transportError
      = some ⟨"failure", "AppNotOpen"⟩ := by
  decide

/-- C7 amended: whenever an options object is supplied (with or without an
accountIndex field) and the phase reaches the sub-routine, the
address-fetch sub-routine is invoked with the configured account index,
defaulting to 0 when the field is absent; when no options value is
supplied at all the sub-routine is not invoked (see the counterexample). -/
theorem executeLedgerLoop_accountIndex_default (p : Provider) (d : Device)
    (tasks : List LedgerTask) (oi : Option Nat) (s : LedgerState)
    (htask : LedgerTask.get_address ∈ tasks)
    (hc : ∀ n, p.create n = Except.ok ⟨some d⟩)
    (hcl : ∀ n, p.close n = Except.ok ()) :
    Event.handleGetAddressCall (oi.getD 0)
      ∈ (executeLedgerLoop p tasks (JsOptions.obj oi) s).2 := by
  by_cases hdi : LedgerTask.get_device_info ∈ tasks <;>
  cases hres : p.getAddress (derivationPath (oi.getD 0)) false <;>
  simp [executeLedgerLoop, runDeviceInfoPhase, runAddressPhase,
    handleGetAddress, storeSuccess, hc, hcl, htask, hdi, hres]

/-- Witness for the amended C7 at the all-success provider with an options
object lacking the accountIndex field: the sub-routine runs with index
0. -/
theorem executeLedgerLoop_accountIndex_default_witness :
    Event.handleGetAddressCall 0
      ∈ (executeLedgerLoop allOkProvider [LedgerTask.get_address]
          (JsOptions.obj none) initialState).2 :=
  executeLedgerLoop_accountIndex_default allOkProvider ⟨"1", "Nano"⟩
    [LedgerTask.get_address] none initialState (by decide) (fun _ => rfl)
    (fun _ => rfl)

/-- C9: `resetStatusCodes` empties the status-code history and changes no
other state slot. -/
theorem resetStatusCodes_frame (s : LedgerState) :
    (resetStatusCodes s).statusCodes = [] ∧
    (resetStatusCodes s).isImporting = s.isImporting ∧
    (resetStatusCodes s).isPaired = s.isPaired ∧
    (resetStatusCodes s).transportError = s.transportError ∧
    (resetStatusCodes s).ledgerDeviceInfo = s.ledgerDeviceInfo ∧
    (resetStatusCodes s).transportResponse = s.transportResponse :=
  ⟨rfl, rfl, rfl, rfl, rfl, rfl⟩

/-- C10: `checkPaired` returns true exactly when the provider `create()`
resolves and false exactly when it rejects, and performs no state
mutation. -/
theorem checkPaired_spec (p : Provider) (s : LedgerState) :
    ((checkPaired p s).1 = true ↔ ∃ t, p.create 0 = Except.ok t) ∧
    ((checkPaired p s).1 = false ↔ ∃ e, p.create 0 = Except.error e) ∧
    (checkPaired p s).2 = s := by
  cases h : p.create 0 <;> simp [checkPaired, h]

end Ledger
